import Mathlib

/-
Verification of the `roblox_client` library (`src/roblox_client/__init__.py`):
a shallow embedding of the retry/backoff request core, the Data Store and
Ordered Data Store resource clients, and the deep header merge, together with
proofs of the specified behaviours.
-/

set_option autoImplicit false

namespace RobloxClient

/-- A JSON-like value, used both for parsed response payloads and for the
Python keyword-argument dictionaries handled by `mergedeep.merge`. -/
inductive Json where
  | null
  | bool (b : Bool)
  | num (n : Int)
  | str (s : String)
  | arr (xs : List Json)
  | obj (fields : List (String × Json))

/-- `RBX_API_URL`: the base url for the Roblox API. -/
def RBX_API_URL : String := "https://apis.roblox.com/"

/-- `DATASTORE_URL`: the base url for the Data Store API. -/
def DATASTORE_URL : String := RBX_API_URL ++ "datastores/v1/universes/"

/-- `ORDERED_DATASTORE_URL`: the base url for the Ordered Data Store API.
The Python source is a format string with three placeholders; here it is the
function applying them. -/
def ORDERED_DATASTORE_URL (universe_id ods_name scope : String) : String :=
  RBX_API_URL ++ "ordered-data-stores/v1/universes/" ++ universe_id ++
    "/orderedDataStores/" ++ ods_name ++ "/scopes/" ++ scope ++ "/entries"

/-- `MAX_RETRIES`: the maximum number of retries. -/
def MAX_RETRIES : Nat := 5

/-- Status code 204. -/
def NO_CONTENT : Nat := 204

/-- Status code 403. -/
def FORBIDDEN : Nat := 403

/-- Status code 404. -/
def NOT_FOUND : Nat := 404

/-- Status code 429. -/
def TOO_MANY_REQUESTS : Nat := 429

/-- Status code 502. -/
def BAD_GATEWAY : Nat := 502

/-- What the transport (`aiohttp.ClientSession.request`) returns: a status
code, the error detail carried by `raise_for_status` when it raises, and the
outcome of parsing the body as JSON (`none` models a body that is not valid
JSON, so that `response.json()` raises). -/
structure Response where
  status : Nat
  detail : String
  json : Option Json

/-- The argument tuple a resource-client method passes to `_request`:
method, url, optional query parameters (`params=` keyword; `none` when the
keyword is not passed at all), optional JSON body (`json=` keyword). -/
structure Request where
  method : String
  url : String
  params : Option (List (String × String))
  body : Option Json

/-- The outcome of one logical `_request` call: `success payload`
(a parsed JSON body), `empty` (a 204 response returns no payload),
`httpError status detail` (the `aiohttp.ClientResponseError` raised by
`raise_for_status`), or `parseError` (2xx body that is not valid JSON). -/
inductive ReqResult where
  | success (payload : Json)
  | empty
  | httpError (status : Nat) (detail : String)
  | parseError

/-- Observable events of one `_request` execution, in order: `call req` each
time the transport is invoked with argument tuple `req`, and `wait d` each
time `time.sleep(d)` runs. -/
inductive Event where
  | call (req : Request)
  | wait (duration : Nat)

/-- The outcome of running `_request`: its return value (or raised error),
the final value of the instance field `self.retries`, and the trace of
transport calls and sleeps. -/
structure RunResult where
  result : ReqResult
  retries : Nat
  trace : List Event

/-- `AsyncClientBase.__init__` sets `self.retries = 0`. -/
def initRetries : Nat := 0

/-- The last three lines of `AsyncClientBase._request`, reached when no
retry happens: `response.raise_for_status()` (aiohttp raises
`ClientResponseError` exactly when `status >= 400`), then
`if response.status != NO_CONTENT: return await response.json()`
(a JSON parse that fails on an invalid body), else return `None`. -/
def handleResponse (response : Response) : ReqResult :=
  if 400 ≤ response.status then
    ReqResult.httpError response.status response.detail
  else if response.status ≠ NO_CONTENT then
    match response.json with
    | some payload => ReqResult.success payload
    | none => ReqResult.parseError
  else ReqResult.empty

/-- `AsyncClientBase._request`, embedded with the transport as a function
from the attempt number to the response it returns on that attempt, and the
instance field `self.retries` threaded as explicit state.

Mirrors the source line by line: if the status is 429 or 502 and
`attempt <= MAX_RETRIES`, sleep `2 ** attempt`, increment `self.retries`,
and recurse with `attempt + 1`; otherwise fall through to the terminal
lines embodied by `handleResponse`. -/
def _request (transport : Nat → Response) (retries : Nat) (req : Request)
    (attempt : Nat) : RunResult :=
  let response := transport attempt
  if h : (response.status = TOO_MANY_REQUESTS ∨ response.status = BAD_GATEWAY) ∧
      attempt ≤ MAX_RETRIES then
    let rest := _request transport (retries + 1) req (attempt + 1)
    { result := rest.result, retries := rest.retries,
      trace := Event.call req :: Event.wait (2 ^ attempt) :: rest.trace }
  else
    { result := handleResponse response, retries := retries,
      trace := [Event.call req] }
termination_by MAX_RETRIES + 1 - attempt
decreasing_by
  have := h.2
  simp [MAX_RETRIES] at this ⊢
  omega

/-
Python dictionaries as ordered association lists.  A dict display such as
`{'entryKey': entry_key, **self.base_params, **kwargs}` inserts its pairs
left to right into a fresh dict; a later pair with an already-present key
overwrites the value in place (last write wins).
-/

/-- Lookup in an association list: the value of the first pair whose key
matches (Python dict lookup, sound because `pyInsert` keeps keys unique). -/
def pyLookup : List (String × String) → String → Option String
  | [], _ => none
  | (k, v) :: rest, key => if k = key then some v else pyLookup rest key

/-- Whether a key is present. -/
def hasKey (d : List (String × String)) (k : String) : Bool :=
  d.any (fun p => p.1 = k)

/-- `d[k] = v` on a Python dict: overwrite in place when the key is present,
append otherwise. -/
def pyInsert (d : List (String × String)) (k : String) (v : String) :
    List (String × String) :=
  if hasKey d k then d.map (fun p => if p.1 = k then (k, v) else p)
  else d ++ [(k, v)]

/-- A Python dict display: insert the listed pairs left to right into an
empty dict. -/
def pyDict (l : List (String × String)) : List (String × String) :=
  l.foldl (fun d p => pyInsert d p.1 p.2) []

/-
Resource clients.  Each method builds an argument tuple and delegates to
`_request`; the embedding of a method is the `Request` it passes, so that the
shared `_request` theorems cover its execution.
-/

/-- The state `AsyncDataStoreClient.__init__` leaves on the instance:
`self.url = f'{DATASTORE_URL}{universe_id}/standard-datastores'` and
`self.base_params = base_params`. -/
structure AsyncDataStoreClient where
  url : String
  base_params : List (String × String)

/-- `AsyncDataStoreClient.__init__` for a given `universe_id`. -/
def AsyncDataStoreClient.mkClient (universe_id : String)
    (base_params : List (String × String)) : AsyncDataStoreClient :=
  { url := DATASTORE_URL ++ universe_id ++ "/standard-datastores",
    base_params := base_params }

/-- The request `AsyncDataStoreClient.list_datastores` passes to `_request`:
`GET self.url` with `params={**self.base_params, **kwargs}`. -/
def AsyncDataStoreClient.list_datastores (c : AsyncDataStoreClient)
    (kwargs : List (String × String)) : Request :=
  { method := "GET", url := c.url,
    params := some (pyDict (c.base_params ++ kwargs)), body := none }

/-- The request `AsyncDataStoreClient.list_entries` passes to `_request`. -/
def AsyncDataStoreClient.list_entries (c : AsyncDataStoreClient)
    (kwargs : List (String × String)) : Request :=
  { method := "GET", url := c.url ++ "/datastore/entries",
    params := some (pyDict (c.base_params ++ kwargs)), body := none }

/-- The request `AsyncDataStoreClient.get_entry` passes to `_request`:
`GET` with `params={'entryKey': entry_key, **self.base_params, **kwargs}`. -/
def AsyncDataStoreClient.get_entry (c : AsyncDataStoreClient)
    (entry_key : String) (kwargs : List (String × String)) : Request :=
  { method := "GET", url := c.url ++ "/datastore/entries/entry",
    params := some (pyDict (("entryKey", entry_key) ::
      (c.base_params ++ kwargs))), body := none }

/-- The request `AsyncDataStoreClient.set_entry` passes to `_request`:
`POST` with `json=data` and
`params={'entryKey': entry_key, **self.base_params, **kwargs}`. -/
def AsyncDataStoreClient.set_entry (c : AsyncDataStoreClient)
    (entry_key : String) (data : Json) (kwargs : List (String × String)) :
    Request :=
  { method := "POST", url := c.url ++ "/datastore/entries/entry",
    params := some (pyDict (("entryKey", entry_key) ::
      (c.base_params ++ kwargs))), body := some data }

/-- The request `AsyncDataStoreClient.delete_entry` passes to `_request`:
`DELETE` with `params={'entryKey': entry_key, **self.base_params, **kwargs}`. -/
def AsyncDataStoreClient.delete_entry (c : AsyncDataStoreClient)
    (entry_key : String) (kwargs : List (String × String)) : Request :=
  { method := "DELETE", url := c.url ++ "/datastore/entries/entry",
    params := some (pyDict (("entryKey", entry_key) ::
      (c.base_params ++ kwargs))), body := none }

/-- The state `AsyncOrderedDataStoreClient.__init__` leaves on the instance:
`self.url = ORDERED_DATASTORE_URL.format(universe_id, ods_name, scope)`. -/
structure AsyncOrderedDataStoreClient where
  url : String

/-- `AsyncOrderedDataStoreClient.__init__`. -/
def AsyncOrderedDataStoreClient.mkClient
    (universe_id ods_name scope : String) : AsyncOrderedDataStoreClient :=
  { url := ORDERED_DATASTORE_URL universe_id ods_name scope }

/-- The request `AsyncOrderedDataStoreClient.list` passes to `_request`:
`GET self.url` with `params=kwargs`. -/
def AsyncOrderedDataStoreClient.list (c : AsyncOrderedDataStoreClient)
    (kwargs : List (String × String)) : Request :=
  { method := "GET", url := c.url, params := some (pyDict kwargs),
    body := none }

/-- The request `AsyncOrderedDataStoreClient.delete` passes to `_request`:
`DELETE f'{self.url}/{entry_id}'` with no `params` and no body; the method
accepts `**kwargs` but never reads them. -/
def AsyncOrderedDataStoreClient.delete (c : AsyncOrderedDataStoreClient)
    (entry_id : String) (kwargs : List (String × String)) : Request :=
  { method := "DELETE", url := c.url ++ "/" ++ entry_id, params := none,
    body := none }

/-
`mergedeep.merge` with its default REPLACE strategy, as used by
`with_x_api_key`.
-/

/-- Whether a value is a mapping (`isinstance(v, Mapping)`). -/
def Json.isObj : Json → Bool
  | Json.obj _ => true
  | _ => false

/-- Lookup in a Python dict represented as an ordered association list. -/
def lookupJson : List (String × Json) → String → Option Json
  | [], _ => none
  | (k, v) :: rest, key => if k = key then some v else lookupJson rest key

/-- `d[k] = v` on a dict whose key `k` is already present: overwrite in
place. -/
def setJson (d : List (String × Json)) (k : String) (v : Json) :
    List (String × Json) :=
  d.map (fun p => if p.1 = k then (k, v) else p)

mutual

/-- `mergedeep._deepmerge(destination, source)` with the REPLACE strategy:
iterate over the source's keys; when a key is present in the destination
and both values are mappings, merge them recursively; when it is present
otherwise, replace the destination value; when it is absent, add it. -/
def deepMerge (dst src : Json) : Json :=
  match dst, src with
  | Json.obj d, Json.obj s => Json.obj (deepMergeFields d s)
  | _, s => s
termination_by sizeOf src

/-- The loop `for key in source` of `mergedeep._deepmerge`. -/
def deepMergeFields (dst : List (String × Json)) :
    List (String × Json) → List (String × Json)
  | [] => dst
  | (k, v) :: rest =>
    match lookupJson dst k with
    | some old =>
      if old.isObj && v.isObj then
        deepMergeFields (setJson dst k (deepMerge old v)) rest
      else
        deepMergeFields (setJson dst k v) rest
    | none => deepMergeFields (dst ++ [(k, v)]) rest
termination_by l => sizeOf l

end

/-- `with_x_api_key(kwargs)`: deep-merge the default
`dict(headers={'x-api-key': os.environ.get('ROBLOX_API_KEY')})` (the
destination) with the caller's `kwargs` (the source, which wins on leaf
conflicts).  The process-wide environment variable is a parameter of the
embedding; `os.environ.get` yields `None` when it is unset. -/
def with_x_api_key (env_ROBLOX_API_KEY : Option String) (kwargs : Json) :
    Json :=
  deepMerge
    (Json.obj [("headers", Json.obj [("x-api-key",
      match env_ROBLOX_API_KEY with
      | some s => Json.str s
      | none => Json.null)])])
    kwargs

/-- The number of sleeps in a trace: one per retry performed. -/
def countWaits : List Event → Nat
  | [] => 0
  | Event.wait _ :: rest => countWaits rest + 1
  | Event.call _ :: rest => countWaits rest

/-- A sequence of logical calls sharing one client instance: every resource
method enters `_request` at `attempt=1`, reading and writing the shared
instance field `self.retries`. -/
def runCalls (retries : Nat) : List ((Nat → Response) × Request) → Nat
  | [] => retries
  | (t, req) :: rest => runCalls (_request t retries req 1).retries rest

/-
Concrete transports and requests used to instantiate the theorems.
-/

/-- A fixed argument tuple used to instantiate theorems on concrete runs. -/
def reqA : Request :=
  { method := "GET", url := "https://example.test/x", params := none,
    body := none }

/-- A transport that is rate-limited on every attempt. -/
def t429 : Nat → Response :=
  fun _ => { status := 429, detail := "Too Many Requests", json := none }

/-- A transport answering 401 on every attempt. -/
def t401 : Nat → Response :=
  fun _ => { status := 401, detail := "Unauthorized", json := none }

/-- A transport answering 204 with a body that is not valid JSON. -/
def t204 : Nat → Response :=
  fun _ => { status := 204, detail := "junk", json := none }

/-- A transport answering 200 with body JSON `value: 1`. -/
def t200 : Nat → Response :=
  fun _ => { status := 200, detail := "",
             json := some (Json.obj [("value", Json.num 1)]) }

/-- A transport answering 200 with a body that is not valid JSON. -/
def t200bad : Nat → Response :=
  fun _ => { status := 200, detail := "not json", json := none }

/-- A transport answering 304: not in the 2xx range, not 429/502, and below
the 400 threshold of `raise_for_status`; its body is valid JSON. -/
def t304 : Nat → Response :=
  fun _ => { status := 304, detail := "Not Modified",
             json := some (Json.obj []) }

/-- A data-store client whose base parameters already bind `entryKey`. -/
def cShadow : AsyncDataStoreClient :=
  AsyncDataStoreClient.mkClient "u1" [("entryKey", "shadow")]

/-
Theorems.
-/

/-- Unfolding `_request` on a 429/502 response within the retry budget:
one transport call, one sleep of `2 ^ attempt`, one increment of
`self.retries`, then the recursive call with `attempt + 1`. -/
theorem request_retry_step (t : Nat → Response) (r : Nat) (req : Request)
    (a : Nat)
    (hst : (t a).status = TOO_MANY_REQUESTS ∨ (t a).status = BAD_GATEWAY)
    (ha : a ≤ MAX_RETRIES) :
    _request t r req a =
      { result := (_request t (r + 1) req (a + 1)).result,
        retries := (_request t (r + 1) req (a + 1)).retries,
        trace := Event.call req :: Event.wait (2 ^ a) ::
          (_request t (r + 1) req (a + 1)).trace } := by
  rw [_request]
  simp only [dif_pos (And.intro hst ha)]

/-- Unfolding `_request` on a response that is not retried (either the status
is not 429/502, or the budget is exhausted): a single transport call followed
by the terminal handling. -/
theorem request_terminal (t : Nat → Response) (r : Nat) (req : Request)
    (a : Nat)
    (hnr : ¬(((t a).status = TOO_MANY_REQUESTS ∨
        (t a).status = BAD_GATEWAY) ∧ a ≤ MAX_RETRIES)) :
    _request t r req a =
      { result := handleResponse (t a), retries := r,
        trace := [Event.call req] } := by
  rw [_request]
  simp only [dif_neg hnr]

/-- Unfolding `_request` on a response that is not retried (either the status
is not 429/502, or the budget is exhausted) and has status at least 400:
`raise_for_status` raises at once, after a single transport call. -/
theorem request_error_step (t : Nat → Response) (r : Nat) (req : Request)
    (a : Nat)
    (hnr : ¬(((t a).status = TOO_MANY_REQUESTS ∨
        (t a).status = BAD_GATEWAY) ∧ a ≤ MAX_RETRIES))
    (h4 : 400 ≤ (t a).status) :
    _request t r req a =
      { result := ReqResult.httpError (t a).status (t a).detail,
        retries := r, trace := [Event.call req] } := by
  rw [request_terminal t r req a hnr]
  simp only [handleResponse, if_pos h4]

/-- Unfolding `_request` on a response with status below 400 and other than
204: `raise_for_status` does not raise and the body is parsed as JSON. -/
theorem request_parse_step (t : Nat → Response) (r : Nat) (req : Request)
    (a : Nat) (h4 : (t a).status < 400) (h204 : (t a).status ≠ NO_CONTENT) :
    _request t r req a =
      match (t a).json with
      | some payload =>
          { result := ReqResult.success payload, retries := r,
            trace := [Event.call req] }
      | none =>
          { result := ReqResult.parseError, retries := r,
            trace := [Event.call req] } := by
  have hnr : ¬(((t a).status = TOO_MANY_REQUESTS ∨
      (t a).status = BAD_GATEWAY) ∧ a ≤ MAX_RETRIES) := by
    rintro ⟨hst | hst, -⟩ <;> rw [hst] at h4 <;>
      simp only [TOO_MANY_REQUESTS, BAD_GATEWAY] at h4 <;> omega
  rw [request_terminal t r req a hnr]
  simp only [handleResponse, if_neg (by omega : ¬400 ≤ (t a).status),
    if_pos h204]
  cases (t a).json <;> rfl

/-- Unfolding `_request` on a 204 response: no payload is returned and the
body is never parsed. -/
theorem request_empty_step (t : Nat → Response) (r : Nat) (req : Request)
    (a : Nat) (h : (t a).status = NO_CONTENT) :
    _request t r req a =
      { result := ReqResult.empty, retries := r,
        trace := [Event.call req] } := by
  have h4 : (t a).status < 400 := by rw [h]; norm_num [NO_CONTENT]
  have hnr : ¬(((t a).status = TOO_MANY_REQUESTS ∨
      (t a).status = BAD_GATEWAY) ∧ a ≤ MAX_RETRIES) := by
    rintro ⟨hst | hst, -⟩ <;> rw [hst] at h4 <;>
      simp only [TOO_MANY_REQUESTS, BAD_GATEWAY] at h4 <;> omega
  rw [request_terminal t r req a hnr]
  simp only [handleResponse, if_neg (by omega : ¬400 ≤ (t a).status),
    if_neg (by simp [h] : ¬(t a).status ≠ NO_CONTENT)]

theorem pyLookup_append (a b : List (String × String)) (key : String) :
    pyLookup (a ++ b) key =
      match pyLookup a key with
      | some v => some v
      | none => pyLookup b key := by
  induction a with
  | nil => simp [pyLookup]
  | cons p rest ih =>
    by_cases hp : p.1 = key <;> simp [pyLookup, hp, ih]

theorem pyLookup_eq_none (d : List (String × String)) (k : String)
    (h : hasKey d k = false) : pyLookup d k = none := by
  induction d with
  | nil => rfl
  | cons p rest ih =>
    simp only [hasKey, List.any_cons, Bool.or_eq_false_iff,
      decide_eq_false_iff_not] at h
    simp [pyLookup, h.1, ih (by simpa [hasKey] using h.2)]

theorem pyLookup_map_overwrite_hit (d : List (String × String)) (k v : String)
    (h : hasKey d k = true) :
    pyLookup (d.map fun p => if p.1 = k then (k, v) else p) k = some v := by
  induction d with
  | nil => simp [hasKey] at h
  | cons p rest ih =>
    by_cases hp : p.1 = k
    · rw [List.map_cons, if_pos hp]
      simp [pyLookup]
    · rw [List.map_cons, if_neg hp]
      have hr : hasKey rest k = true := by
        simpa [hasKey, List.any_cons, hp] using h
      simp [pyLookup, hp, ih hr]

theorem pyLookup_map_overwrite_miss (d : List (String × String))
    (k v key : String) (hkey : key ≠ k) :
    pyLookup (d.map fun p => if p.1 = k then (k, v) else p) key =
      pyLookup d key := by
  induction d with
  | nil => rfl
  | cons p rest ih =>
    by_cases hp : p.1 = k
    · rw [List.map_cons, if_pos hp]
      have h1 : ¬(k = key) := fun h => hkey h.symm
      have h2 : ¬(p.1 = key) := by rw [hp]; exact h1
      simp [pyLookup, h1, h2, ih]
    · rw [List.map_cons, if_neg hp]
      by_cases hpk : p.1 = key <;> simp [pyLookup, hpk, ih]

theorem pyLookup_pyInsert (d : List (String × String)) (k v key : String) :
    pyLookup (pyInsert d k v) key =
      if key = k then some v else pyLookup d key := by
  unfold pyInsert
  by_cases hkey : key = k
  · subst hkey
    by_cases hk : hasKey d key
    · simp [hk, pyLookup_map_overwrite_hit d key v hk]
    · rw [if_neg (by simpa using hk), pyLookup_append,
        pyLookup_eq_none d key (by simpa using hk)]
      simp [pyLookup]
  · by_cases hk : hasKey d k
    · simp [hk, pyLookup_map_overwrite_miss d k v key hkey, hkey]
    · rw [if_neg (by simpa using hk), pyLookup_append, if_neg hkey]
      have hk2 : ¬(k = key) := fun h => hkey h.symm
      cases hpd : pyLookup d key <;> simp [pyLookup, hk2]

theorem pyDict_append_single (l : List (String × String)) (k v : String) :
    pyDict (l ++ [(k, v)]) = pyInsert (pyDict l) k v := by
  simp [pyDict, List.foldl_append]

/-- The characterisation of a dict display: looking a key up in
`pyDict l` finds the value of the LAST pair of `l` with that key. -/
theorem pyLookup_pyDict (l : List (String × String)) (key : String) :
    pyLookup (pyDict l) key = pyLookup l.reverse key := by
  induction l using List.reverseRecOn with
  | nil => rfl
  | append_singleton l p ih =>
    obtain ⟨k, v⟩ := p
    rw [pyDict_append_single, pyLookup_pyInsert, List.reverse_append]
    by_cases hkey : key = k
    · simp [pyLookup, hkey]
    · have h2 : ¬(k = key) := fun h => hkey h.symm
      simp [pyLookup, hkey, h2, ih]

/-- The returned value and the observable trace of `_request` do not depend
on the current value of the `self.retries` counter. -/
theorem request_counter_independent (t : Nat → Response) (req : Request) :
    ∀ n a r r', MAX_RETRIES + 1 ≤ a + n →
      (_request t r req a).result = (_request t r' req a).result ∧
      (_request t r req a).trace = (_request t r' req a).trace := by
  intro n
  induction n with
  | zero =>
    intro a r r' h
    have hnr : ¬(((t a).status = TOO_MANY_REQUESTS ∨
        (t a).status = BAD_GATEWAY) ∧ a ≤ MAX_RETRIES) := by
      rintro ⟨-, h5⟩
      simp only [MAX_RETRIES] at h5 h
      omega
    rw [request_terminal t r req a hnr, request_terminal t r' req a hnr]
    exact ⟨rfl, rfl⟩
  | succ n ih =>
    intro a r r' h
    by_cases hc : ((t a).status = TOO_MANY_REQUESTS ∨
        (t a).status = BAD_GATEWAY) ∧ a ≤ MAX_RETRIES
    · rw [request_retry_step t r req a hc.1 hc.2,
        request_retry_step t r' req a hc.1 hc.2]
      obtain ⟨h1, h2⟩ := ih (a + 1) (r + 1) (r' + 1) (by omega)
      exact ⟨h1, by rw [h2]⟩
    · rw [request_terminal t r req a hc, request_terminal t r' req a hc]
      exact ⟨rfl, rfl⟩

/-- The final value of `self.retries` is its initial value plus the number
of sleeps in the trace: the counter counts exactly the backoff waits. -/
theorem request_retries_eq (t : Nat → Response) (req : Request) :
    ∀ n a r, MAX_RETRIES + 1 ≤ a + n →
      (_request t r req a).retries =
        r + countWaits (_request t r req a).trace := by
  intro n
  induction n with
  | zero =>
    intro a r h
    have hnr : ¬(((t a).status = TOO_MANY_REQUESTS ∨
        (t a).status = BAD_GATEWAY) ∧ a ≤ MAX_RETRIES) := by
      rintro ⟨-, h5⟩
      simp only [MAX_RETRIES] at h5 h
      omega
    rw [request_terminal t r req a hnr]
    simp [countWaits]
  | succ n ih =>
    intro a r h
    by_cases hc : ((t a).status = TOO_MANY_REQUESTS ∨
        (t a).status = BAD_GATEWAY) ∧ a ≤ MAX_RETRIES
    · rw [request_retry_step t r req a hc.1 hc.2]
      have := ih (a + 1) (r + 1) (by omega)
      simp only [countWaits]
      omega
    · rw [request_terminal t r req a hc]
      simp [countWaits]

/-- `self.retries` never decreases across one logical `_request` call. -/
theorem request_retries_mono (t : Nat → Response) (r : Nat) (req : Request)
    (a : Nat) : r ≤ (_request t r req a).retries := by
  rw [request_retries_eq t req (MAX_RETRIES + 1) a r (by omega)]
  exact Nat.le_add_right r _

/-- `self.retries` never decreases across a sequence of logical calls on a
shared client instance. -/
theorem runCalls_mono (calls : List ((Nat → Response) × Request)) :
    ∀ r, r ≤ runCalls r calls := by
  induction calls with
  | nil => intro r; exact Nat.le_refl r
  | cons c rest ih =>
    intro r
    obtain ⟨t, req⟩ := c
    exact Nat.le_trans (request_retries_mono t r req 1)
      (ih (_request t r req 1).retries)

/-- Running further calls continues from the counter the earlier calls
left behind. -/
theorem runCalls_append (xs ys : List ((Nat → Response) × Request)) :
    ∀ r, runCalls r (xs ++ ys) = runCalls (runCalls r xs) ys := by
  induction xs with
  | nil => intro r; rfl
  | cons c rest ih =>
    intro r
    obtain ⟨t, req⟩ := c
    simp only [List.cons_append, runCalls]
    exact ih (_request t r req 1).retries

/-- A response whose status is neither 429 nor 502 never takes the retry
branch, whatever the attempt number. -/
theorem not_retryable (t : Nat → Response) (a : Nat)
    (h1 : (t a).status ≠ TOO_MANY_REQUESTS)
    (h2 : (t a).status ≠ BAD_GATEWAY) :
    ¬(((t a).status = TOO_MANY_REQUESTS ∨ (t a).status = BAD_GATEWAY) ∧
      a ≤ MAX_RETRIES) := by
  rintro ⟨hst | hst, -⟩
  · exact h1 hst
  · exact h2 hst

/-- Lookup in the parameter dict `py{entryKey: ek, **base, **kwargs}`:
the last write wins, so a call-level binding beats a base binding, and both
beat the entry key, which was written first. -/
theorem entry_params_lookup (base kwargs : List (String × String))
    (ek key : String) :
    pyLookup (pyDict (("entryKey", ek) :: (base ++ kwargs))) key =
      match pyLookup kwargs.reverse key with
      | some v => some v
      | none =>
        match pyLookup base.reverse key with
        | some v => some v
        | none => if key = "entryKey" then some ek else none := by
  rw [pyLookup_pyDict]
  simp only [List.reverse_cons, List.reverse_append]
  rw [List.append_assoc, pyLookup_append, pyLookup_append]
  have hsingle : pyLookup [("entryKey", ek)] key =
      if key = "entryKey" then some ek else none := by
    by_cases hkey : key = "entryKey"
    · simp [pyLookup, hkey]
    · have hkey2 : ¬("entryKey" = key) := fun h => hkey h.symm
      simp [pyLookup, hkey, hkey2]
  cases pyLookup kwargs.reverse key <;>
    cases pyLookup base.reverse key <;> simp [hsingle]

/-- C1: for every attempt `a` with `1 ≤ a ≤ MAX_RETRIES = 5`, a response
with status 429 or 502 makes `_request` wait exactly `2 ^ a` time units and
re-issue the same request tuple with attempt `a + 1` (incrementing the retry
counter once); a response with any other status never takes the retry
branch: the run ends after its single transport call, with no wait. -/
theorem C1_backoff_schedule (t : Nat → Response) (r : Nat) (req : Request)
    (a : Nat) (h1 : 1 ≤ a) (h5 : a ≤ MAX_RETRIES) :
    (((t a).status = 429 ∨ (t a).status = 502) →
      _request t r req a =
        { result := (_request t (r + 1) req (a + 1)).result,
          retries := (_request t (r + 1) req (a + 1)).retries,
          trace := Event.call req :: Event.wait (2 ^ a) ::
            (_request t (r + 1) req (a + 1)).trace })
    ∧ (((t a).status ≠ 429 ∧ (t a).status ≠ 502) →
      (_request t r req a).trace = [Event.call req]) := by
  constructor
  · intro hst
    exact request_retry_step t r req a hst h5
  · intro hst
    rw [request_terminal t r req a (not_retryable t a hst.1 hst.2)]

/-- C1 witness: with a transport that always answers 429, attempt 1 sleeps
2 time units and recurses at attempt 2; with a transport that always
answers 401, attempt 1 performs its single call and no retry. -/
theorem C1_backoff_schedule_witness :
    (_request t429 0 reqA 1 =
      { result := (_request t429 1 reqA 2).result,
        retries := (_request t429 1 reqA 2).retries,
        trace := Event.call reqA :: Event.wait 2 ::
          (_request t429 1 reqA 2).trace })
    ∧ (_request t401 0 reqA 1).trace = [Event.call reqA] := by
  constructor
  · exact (C1_backoff_schedule t429 0 reqA 1 (by decide) (by decide)).1
      (Or.inl rfl)
  · exact (C1_backoff_schedule t401 0 reqA 1 (by decide) (by decide)).2
      (by decide)

/-- C2: when the transport answers 429 or 502 on every attempt, the run
performs exactly five retries (waits 2, 4, 8, 16, 32) and then, on the 6th
consecutive 429/502 (`attempt = 6 > MAX_RETRIES`), performs no further
retry and raises an HTTP error carrying that response's own 429/502 status
and detail; the stale response is never converted to success. -/
theorem C2_retries_exhausted (t : Nat → Response) (r : Nat) (req : Request)
    (h : ∀ n, (t n).status = 429 ∨ (t n).status = 502) :
    _request t r req 1 =
      { result := ReqResult.httpError (t 6).status (t 6).detail,
        retries := r + 5,
        trace := [Event.call req, Event.wait 2, Event.call req, Event.wait 4,
          Event.call req, Event.wait 8, Event.call req, Event.wait 16,
          Event.call req, Event.wait 32, Event.call req] }
    ∧ ((t 6).status = 429 ∨ (t 6).status = 502) := by
  have hnr : ¬(((t 6).status = TOO_MANY_REQUESTS ∨
      (t 6).status = BAD_GATEWAY) ∧ 6 ≤ MAX_RETRIES) := by
    rintro ⟨-, h6⟩
    simp only [MAX_RETRIES] at h6
    omega
  have h4 : 400 ≤ (t 6).status := by
    rcases h 6 with h6 | h6 <;> rw [h6] <;> omega
  have e6 : _request t (r + 5) req 6 =
      { result := ReqResult.httpError (t 6).status (t 6).detail,
        retries := r + 5, trace := [Event.call req] } :=
    request_error_step t (r + 5) req 6 hnr h4
  have e5 : _request t (r + 4) req 5 =
      { result := ReqResult.httpError (t 6).status (t 6).detail,
        retries := r + 5,
        trace := [Event.call req, Event.wait 32, Event.call req] } := by
    rw [request_retry_step t (r + 4) req 5 (h 5) (by decide), e6]; rfl
  have e4 : _request t (r + 3) req 4 =
      { result := ReqResult.httpError (t 6).status (t 6).detail,
        retries := r + 5,
        trace := [Event.call req, Event.wait 16, Event.call req,
          Event.wait 32, Event.call req] } := by
    rw [request_retry_step t (r + 3) req 4 (h 4) (by decide), e5]; rfl
  have e3 : _request t (r + 2) req 3 =
      { result := ReqResult.httpError (t 6).status (t 6).detail,
        retries := r + 5,
        trace := [Event.call req, Event.wait 8, Event.call req,
          Event.wait 16, Event.call req, Event.wait 32, Event.call req] } := by
    rw [request_retry_step t (r + 2) req 3 (h 3) (by decide), e4]; rfl
  have e2 : _request t (r + 1) req 2 =
      { result := ReqResult.httpError (t 6).status (t 6).detail,
        retries := r + 5,
        trace := [Event.call req, Event.wait 4, Event.call req, Event.wait 8,
          Event.call req, Event.wait 16, Event.call req, Event.wait 32,
          Event.call req] } := by
    rw [request_retry_step t (r + 1) req 2 (h 2) (by decide), e3]; rfl
  refine ⟨?_, h 6⟩
  rw [request_retry_step t r req 1 (h 1) (by decide), e2]; rfl

/-- C2 witness: six consecutive 429 responses end in `httpError 429` after
exactly five waits of 2, 4, 8, 16, 32 time units. -/
theorem C2_retries_exhausted_witness :
    _request t429 0 reqA 1 =
      { result := ReqResult.httpError 429 "Too Many Requests",
        retries := 5,
        trace := [Event.call reqA, Event.wait 2, Event.call reqA,
          Event.wait 4, Event.call reqA, Event.wait 8, Event.call reqA,
          Event.wait 16, Event.call reqA, Event.wait 32, Event.call reqA] } := by
  exact (C2_retries_exhausted t429 0 reqA (fun n => Or.inl rfl)).1

/-- C3 (amended): for every response whose status is at least 400 and is
neither 429 nor 502, `_request` fails immediately on its current attempt
with an HTTP error carrying that status and the response detail, with no
retry and no backoff wait, for every value of `attempt`; in particular this
holds for 400, 401, 403 and 404.  (Amendment: the guarantee is bounded
below by 400, not by "not in the 2xx range": `raise_for_status` raises only
for statuses of 400 and above, so a 3xx response such as 304 is not turned
into an HTTP error — see the counterexample.) -/
theorem C3_terminal_error (t : Nat → Response) (r : Nat) (req : Request)
    (a : Nat) (h4 : 400 ≤ (t a).status) (h429 : (t a).status ≠ 429)
    (h502 : (t a).status ≠ 502) :
    _request t r req a =
      { result := ReqResult.httpError (t a).status (t a).detail,
        retries := r, trace := [Event.call req] } :=
  request_error_step t r req a (not_retryable t a h429 h502) h4

/-- C3 witness: a 401 response raises immediately, both on attempt 1 and on
attempt 3, with a single transport call and no wait. -/
theorem C3_terminal_error_witness :
    _request t401 0 reqA 1 =
      { result := ReqResult.httpError 401 "Unauthorized", retries := 0,
        trace := [Event.call reqA] }
    ∧ _request t401 7 reqA 3 =
      { result := ReqResult.httpError 401 "Unauthorized", retries := 7,
        trace := [Event.call reqA] } :=
  ⟨C3_terminal_error t401 0 reqA 1 (by decide) (by decide) (by decide),
   C3_terminal_error t401 7 reqA 3 (by decide) (by decide) (by decide)⟩

/-- C3 counterexample: status 304 is not in the 2xx range and is neither 429
nor 502, yet `_request` does not fail with an HTTP error: `raise_for_status`
does not raise below 400, so the body is parsed and the call SUCCEEDS. -/
theorem C3_counterexample :
    ¬(200 ≤ 304 ∧ 304 ≤ 299) ∧ (304 : Nat) ≠ 429 ∧ (304 : Nat) ≠ 502 ∧
    (t304 1).status = 304 ∧
    _request t304 0 reqA 1 =
      { result := ReqResult.success (Json.obj []), retries := 0,
        trace := [Event.call reqA] } ∧
    ReqResult.success (Json.obj []) ≠
      ReqResult.httpError 304 "Not Modified" := by
  refine ⟨by omega, by omega, by omega, rfl, ?_, fun h => ReqResult.noConfusion h⟩
  exact request_parse_step t304 0 reqA 1 (by decide) (by decide)

/-- C4 (amended): for every key-addressed Data Store operation (`get_entry`,
`set_entry`, `delete_entry`), the query-parameter map sent to the executor
is the ordered last-write-wins merge of the entry key FIRST (under
`entryKey`), then the client-level base parameters, then the call-level
keyword parameters: call-level parameters override base parameters on any
colliding key, and both override the entry key on the key `entryKey`, which
therefore maps to the method's argument only when neither of them binds
`entryKey`.  (Amendment: the source writes the entry key first, not last,
so it is the default, not the final overriding write — see the
counterexample.) -/
theorem C4_param_merge (c : AsyncDataStoreClient) (entry_key : String)
    (data : Json) (kwargs : List (String × String)) :
    ((c.get_entry entry_key kwargs).params =
        some (pyDict (("entryKey", entry_key) :: (c.base_params ++ kwargs)))
      ∧ (c.set_entry entry_key data kwargs).params =
        some (pyDict (("entryKey", entry_key) :: (c.base_params ++ kwargs)))
      ∧ (c.delete_entry entry_key kwargs).params =
        some (pyDict (("entryKey", entry_key) :: (c.base_params ++ kwargs))))
    ∧ ∀ key,
        pyLookup (pyDict (("entryKey", entry_key) ::
            (c.base_params ++ kwargs))) key =
          match pyLookup kwargs.reverse key with
          | some v => some v
          | none =>
            match pyLookup c.base_params.reverse key with
            | some v => some v
            | none => if key = "entryKey" then some entry_key else none :=
  ⟨⟨rfl, rfl, rfl⟩,
   fun key => entry_params_lookup c.base_params kwargs entry_key key⟩

/-- C4 counterexample: with base parameters binding `entryKey` to `shadow`
and no call-level parameters, `get_entry` with entry key `real-key` sends
`entryKey=shadow`: the entry key is NOT applied last and is overridden, so
the sent map does not carry the method's entry key. -/
theorem C4_counterexample :
    pyLookup ((cShadow.get_entry "real-key" []).params.getD []) "entryKey" =
      some "shadow" ∧
    (some "shadow" : Option String) ≠ some "real-key" := by
  refine ⟨by decide, by decide⟩

/-- C5: `with_x_api_key` deep-merges the default header map (carrying the
process-wide API key under `x-api-key`) with the caller-supplied keyword
arguments, the caller winning on leaf conflict: a caller-supplied
`headers.x-api-key` replaces the default, and a caller header under any
other key combines with the default `x-api-key` entry instead of replacing
the nested `headers` dictionary wholesale. -/
theorem C5_header_merge (api k2 k : String) (v : Json)
    (hk : k ≠ "x-api-key") :
    with_x_api_key (some api)
        (Json.obj [("headers", Json.obj [("x-api-key", Json.str k2)])]) =
      Json.obj [("headers", Json.obj [("x-api-key", Json.str k2)])]
    ∧ with_x_api_key (some api)
        (Json.obj [("headers", Json.obj [(k, v)])]) =
      Json.obj [("headers",
        Json.obj [("x-api-key", Json.str api), (k, v)])] := by
  have hk2 : ¬("x-api-key" = k) := fun h => hk h.symm
  constructor
  · simp [with_x_api_key, deepMerge, deepMergeFields, lookupJson, setJson,
      Json.isObj]
  · simp [with_x_api_key, deepMerge, deepMergeFields, lookupJson, setJson,
      Json.isObj, hk2]

/-- C5 witness: merging the default key `K` with caller headers
`x-api-key: K2` yields `K2`; merging it with an unrelated caller header
keeps both entries of the nested dictionary. -/
theorem C5_header_merge_witness :
    with_x_api_key (some "K")
        (Json.obj [("headers", Json.obj [("x-api-key", Json.str "K2")])]) =
      Json.obj [("headers", Json.obj [("x-api-key", Json.str "K2")])]
    ∧ with_x_api_key (some "K")
        (Json.obj [("headers", Json.obj [("accept", Json.str "json")])]) =
      Json.obj [("headers",
        Json.obj [("x-api-key", Json.str "K"),
          ("accept", Json.str "json")])] :=
  C5_header_merge "K" "K2" "accept" (Json.str "json") (by decide)

/-- C6: every response with status 204 makes `_request` return `Empty` (no
payload, modelled as the `None` return) after its single transport call,
without attempting to parse the response body, whatever the body holds. -/
theorem C6_no_content (t : Nat → Response) (r : Nat) (req : Request)
    (a : Nat) (h : (t a).status = 204) :
    _request t r req a =
      { result := ReqResult.empty, retries := r,
        trace := [Event.call req] } :=
  request_empty_step t r req a h

/-- C6 witness: a 204 response whose body is NOT valid JSON still yields
`Empty`: the body is never parsed. -/
theorem C6_no_content_witness :
    (t204 1).json = none ∧
    _request t204 0 reqA 1 =
      { result := ReqResult.empty, retries := 0,
        trace := [Event.call reqA] } :=
  ⟨rfl, C6_no_content t204 0 reqA 1 rfl⟩

/-- C7: every response with a 2xx status other than 204 has its body parsed
as JSON: `_request` returns `Success` with exactly the parsed payload, and
when the body is not valid JSON it fails with a parse error instead of
returning a value. -/
theorem C7_parse_success (t : Nat → Response) (r : Nat) (req : Request)
    (a : Nat) (h2 : 200 ≤ (t a).status) (h3 : (t a).status ≤ 299)
    (h204 : (t a).status ≠ 204) :
    (∀ payload, (t a).json = some payload →
      _request t r req a =
        { result := ReqResult.success payload, retries := r,
          trace := [Event.call req] })
    ∧ ((t a).json = none →
      _request t r req a =
        { result := ReqResult.parseError, retries := r,
          trace := [Event.call req] }) := by
  have hps := request_parse_step t r req a (by omega) h204
  constructor
  · intro payload hp
    rw [hps, hp]
  · intro hp
    rw [hps, hp]

/-- C7 witness: a 200 response with body JSON `value: 1` yields `Success`
with that exact payload; a 200 response with an invalid JSON body yields a
parse error. -/
theorem C7_parse_success_witness :
    _request t200 0 reqA 1 =
      { result := ReqResult.success (Json.obj [("value", Json.num 1)]),
        retries := 0, trace := [Event.call reqA] }
    ∧ _request t200bad 0 reqA 1 =
      { result := ReqResult.parseError, retries := 0,
        trace := [Event.call reqA] } :=
  ⟨(C7_parse_success t200 0 reqA 1 (by decide) (by decide) (by decide)).1
      (Json.obj [("value", Json.num 1)]) rfl,
   (C7_parse_success t200bad 0 reqA 1 (by decide) (by decide) (by decide)).2
      rfl⟩

/-- C8: over one logical `_request` call, the instance-scoped `retries`
counter increases by exactly the number of backoff waits taken (one per
429/502 retry performed); it stays unchanged when the first response is
terminal (neither 429 nor 502); and the counter has no effect on control
flow: the returned value and the trace are the same whatever the counter's
starting value. -/
theorem C8_retry_counter (t : Nat → Response) (r : Nat) (req : Request)
    (a : Nat) :
    (_request t r req a).retries =
      r + countWaits (_request t r req a).trace
    ∧ (((t a).status ≠ 429 ∧ (t a).status ≠ 502) →
      (_request t r req a).retries = r)
    ∧ ∀ r2,
        (_request t r req a).result = (_request t r2 req a).result ∧
        (_request t r req a).trace = (_request t r2 req a).trace := by
  refine ⟨request_retries_eq t req (MAX_RETRIES + 1) a r
      (Nat.le_add_left _ _), ?_, fun r2 =>
    request_counter_independent t req (MAX_RETRIES + 1) a r r2
      (Nat.le_add_left _ _)⟩
  intro hst
  rw [request_terminal t r req a (not_retryable t a hst.1 hst.2)]

/-- C8 witness: a 401 on the first attempt leaves the counter unchanged
(zero retries recorded, zero waits in the trace), and the run's value and
trace are identical when the counter starts at 7 instead of 0. -/
theorem C8_retry_counter_witness :
    (_request t401 0 reqA 1).retries =
      0 + countWaits (_request t401 0 reqA 1).trace
    ∧ (_request t401 0 reqA 1).retries = 0
    ∧ (_request t401 0 reqA 1).result = (_request t401 7 reqA 1).result
    ∧ (_request t401 0 reqA 1).trace = (_request t401 7 reqA 1).trace := by
  obtain ⟨h1, h2, h3⟩ := C8_retry_counter t401 0 reqA 1
  exact ⟨h1, h2 (by decide), (h3 7).1, (h3 7).2⟩

/-- C9: `AsyncOrderedDataStoreClient.delete` ignores its keyword arguments
entirely: the DELETE request it issues carries no query parameters (the
`params` keyword is not passed at all) and no body, and two calls with the
same `entry_id` but different keyword arguments issue identical requests. -/
theorem C9_delete_ignores_kwargs (c : AsyncOrderedDataStoreClient)
    (entry_id : String) (kwargs kwargs2 : List (String × String)) :
    c.delete entry_id kwargs =
      { method := "DELETE", url := c.url ++ "/" ++ entry_id,
        params := none, body := none }
    ∧ c.delete entry_id kwargs = c.delete entry_id kwargs2 :=
  ⟨rfl, rfl⟩

/-- C10: the instance-scoped `retries` counter starts at 0 at construction,
never decreases across any single operation or any sequence of operations
sharing the client instance, and accumulates: running further calls
continues from the counter value the earlier calls left behind. -/
theorem C10_counter_monotone :
    initRetries = 0
    ∧ (∀ (t : Nat → Response) (r : Nat) (req : Request),
        r ≤ (_request t r req 1).retries)
    ∧ (∀ (r : Nat) (calls : List ((Nat → Response) × Request)),
        r ≤ runCalls r calls)
    ∧ (∀ (r : Nat) (xs ys : List ((Nat → Response) × Request)),
        runCalls r (xs ++ ys) = runCalls (runCalls r xs) ys ∧
        runCalls r xs ≤ runCalls r (xs ++ ys)) := by
  refine ⟨rfl, fun t r req => request_retries_mono t r req 1,
    fun r calls => runCalls_mono calls r, fun r xs ys =>
      ⟨runCalls_append xs ys r, ?_⟩⟩
  rw [runCalls_append xs ys r]
  exact runCalls_mono ys (runCalls r xs)

end RobloxClient

